import Mathlib

/-!
Shallow embedding of the Hotwheels-race vehicle core: the per-tick drift /
damping / friction pipeline of `Car` (src/src/classes/Car.ts, second class),
the keyboard state of `CarControls`, the fixed-timestep accumulator of
`Scene.gameLoop` (src/src/Scene/scene.ts), and the chase camera follow step
of `ThirdPersonCamera` (src/unnamed/part_005).

All machine numbers are modelled as rationals.  Where the source computes an
irrational value (Math.sqrt for `getSpeed`, Math.pow with the non-integer
exponent 1.4, Math.sin / Math.cos of the vehicle yaw) the value is passed in
as an input of the embedded function, constrained by hypotheses where the
relationship matters.  The JavaScript-specific NaN behaviour of
`Math.pow` / `Math.max` is modelled explicitly with `Option` for the one
claim that depends on it.
-/

namespace Hotwheels

/-! Constants

From `Car.VEHICLE_DYNAMICS`, `Car.DRIFT_CONFIG`, `Car.PHYSICS_CONFIG`
(src/src/classes/Car.ts lines 541-599) and `Scene.TIME_CONFIG`
(src/src/Scene/scene.ts lines 36-41). -/

def MIN_SPEED_FACTOR : ℚ := 0.2
def MAX_SPEED_KMH : ℚ := 180
def MIN_STEERING_FACTOR : ℚ := 0.3
def MAX_STEERING_SPEED_KMH : ℚ := 200
-- STEERING_POWER_FACTOR = 1.4 : the non-integer exponent given to Math.pow
def TURN_RESISTANCE_FACTOR : ℚ := 0.015
def MIN_SPEED_FOR_LATERAL_RESISTANCE : ℚ := 10
def LATERAL_RESISTANCE_FACTOR : ℚ := 0.02
def BASE_LINEAR_DAMPING : ℚ := 0.1
def BASE_ANGULAR_DAMPING : ℚ := 0.5

def REAR_FRICTION_HANDBRAKE : ℚ := 0.3
def REAR_FRICTION_NORMAL : ℚ := 2
def FRONT_FRICTION : ℚ := 2.4
def DRIFT_ANGLE_THRESHOLD : ℚ := 0.3
def DRIFT_INITIATION_SPEED : ℚ := 40
def DRIFT_MOMENTUM_FACTOR : ℚ := 0.9
def DRIFT_STABILITY_FACTOR : ℚ := 0.7

def MAX_FORCE : ℚ := 3000
def ENGINE_BRAKE_FACTOR : ℚ := 3

def FIXED_TIMESTEP : ℚ := 1/60
def MAX_DELTA : ℚ := 1/60
def MIN_DELTA : ℚ := 1/120
def TIME_SCALE : ℚ := 1

/-- JavaScript `Math.sign`: `Math.sign(0) = 0`. -/
def jsSign (x : ℚ) : ℚ := if 0 < x then 1 else if x < 0 then -1 else 0

/-! Data model -/

/-- A 3-component vector (THREE.Vector3 / CANNON.Vec3). -/
structure Vec3 where
  x : ℚ
  y : ℚ
  z : ℚ
deriving DecidableEq, Repr

/-- The control flags read by the `Car` tick via
`this.controls.isKeyPressed(...)`: `'z'` throttle forward, `'s'` throttle
reverse, `'space'` handbrake, `'q'` steer left, `'d'` steer right. -/
structure Controls where
  forward : Bool
  reverse : Bool
  handbrake : Bool
  left : Bool
  right : Bool
deriving DecidableEq, Repr

/-- The fields of the `Car` instance that the modelled tick mutates:
`body.angularDamping`, `body.linearDamping`, `isDriftDetected`,
`wheelBodies[2..3].material.friction` (both rear wheel bodies are always
written together), `wheelInfos[i].frictionSlip` (front pair / rear pair are
always written together), and the front steering value. -/
structure CarState where
  angularDamping : ℚ
  linearDamping : ℚ
  isDriftDetected : Bool
  rearFriction : ℚ
  frontFrictionSlip : ℚ
  rearFrictionSlip : ℚ
  frontSteering : ℚ
deriving DecidableEq, Repr

/-- Per-tick inputs read (but not written) by the modelled tick: the control
snapshot, the solver-owned body/wheel quantities, and the values of the
irrational library computations:
* `speed` is the value returned by `getSpeed()` = `Math.sqrt(vx*vx + vz*vz)`;
* `localVelX` is the x component of `vectorToLocalFrame(this.body.velocity)`;
* `steerPow` is the value of
  `Math.pow(1 - speed / MAX_STEERING_SPEED_KMH, STEERING_POWER_FACTOR)`,
  meaningful only when `speed ≤ MAX_STEERING_SPEED_KMH` (for larger speeds
  the JavaScript value is NaN; that regime is modelled separately for the
  steering-factor claim). -/
structure TickIn where
  controls : Controls
  speed : ℚ
  velX : ℚ
  velZ : ℚ
  angularVelY : ℚ
  localVelX : ℚ
  sideImpulseL : ℚ
  sideImpulseR : ℚ
  steerPow : ℚ
deriving DecidableEq, Repr

/-- Initial `Car` state established by `initializePhysics` (angularDamping
0.3, linearDamping 0.05), `addWheel` (frictionSlip 2.0 front / 1.2 rear) and
`addWheelHelpers` (`new CANNON.Material('wheel')`, whose cannon-es
constructor leaves `friction` at its default value `-1`, meaning "use the
world/contact default").  `isDriftDetected` is initialised to `false` and
steering to 0. -/
def initialCarState : CarState :=
  { angularDamping := 0.3
    linearDamping := 0.05
    isDriftDetected := false
    rearFriction := -1
    frontFrictionSlip := 2.0
    rearFrictionSlip := 1.2
    frontSteering := 0 }

/-! handleBraking (Car.ts lines 874-913) -/

/-- Rear side-impulse drift detection performed at the end of
`handleBraking`: `|wheelInfos[2].sideImpulse| > 5 || |wheelInfos[3].sideImpulse| > 5`. -/
def sideImpulseDetect (inp : TickIn) : Bool :=
  decide (5 < |inp.sideImpulseL|) || decide (5 < |inp.sideImpulseR|)

/-- Source `handleBraking`: with the handbrake held, rear `frictionSlip` is set to
`REAR_FRICTION_HANDBRAKE` (brake torques and rear engine-force zeroing do
not touch the modelled fields); otherwise all wheel `frictionSlip` values
are restored to the normal constants.  In both cases `isDriftDetected` is
then overwritten by the side-impulse detection. -/
def handleBrakingState (s : CarState) (inp : TickIn) : CarState :=
  let s1 :=
    if inp.controls.handbrake then
      { s with rearFrictionSlip := REAR_FRICTION_HANDBRAKE }
    else
      { s with frontFrictionSlip := FRONT_FRICTION
               rearFrictionSlip := REAR_FRICTION_NORMAL }
  { s1 with isDriftDetected := sideImpulseDetect inp }

/-! handleSteering (Car.ts lines 915-955) -/

/-- The signed target steering of `handleSteering`:
`maxSteer * speedFactor` on `'q'`, its negation on `'d'`, else 0, with
`maxSteer = PHYSICS_CONFIG.MAX_STEER = 0.5` and the speed factor
`Math.max(MIN_STEERING_FACTOR, Math.pow(1 - speed/200, 1.4))` whose pow
value arrives as `inp.steerPow`. -/
def targetSteeringOf (inp : TickIn) : ℚ :=
  let currentMaxSteer := (0.5 : ℚ) * max MIN_STEERING_FACTOR inp.steerPow
  if inp.controls.left then currentMaxSteer
  else if inp.controls.right then -currentMaxSteer
  else 0

/-- Source `handleSteering`: computes the target steering, raises
`angularDamping` to base + turn resistance, raises `linearDamping` to base +
lateral resistance when `speed > MIN_SPEED_FOR_LATERAL_RESISTANCE` (leaving
it untouched otherwise), and applies the steering angle to the front
wheels. -/
def handleSteeringState (s : CarState) (inp : TickIn) : CarState :=
  let turnResistance := |targetSteeringOf inp| * inp.speed * TURN_RESISTANCE_FACTOR
  let s1 := { s with angularDamping := BASE_ANGULAR_DAMPING + turnResistance }
  let s2 :=
    if MIN_SPEED_FOR_LATERAL_RESISTANCE < inp.speed then
      { s1 with linearDamping :=
          BASE_LINEAR_DAMPING + |inp.localVelX| * LATERAL_RESISTANCE_FACTOR }
    else s1
  { s2 with frontSteering := targetSteeringOf inp }

/-! Drift state machine (Car.ts lines 1184-1277) -/

/-- The four drift entry conditions of `updateDriftState`:
`speed > DRIFT_INITIATION_SPEED`, `|angularVelocity.y| > DRIFT_ANGLE_THRESHOLD`,
`lateralVelocity > 5` where `lateralVelocity = |velocity.x|`, and the
handbrake key held. -/
def driftCond (inp : TickIn) : Bool :=
  decide (DRIFT_INITIATION_SPEED < inp.speed) &&
  decide (DRIFT_ANGLE_THRESHOLD < |inp.angularVelY|) &&
  decide (5 < |inp.velX|) &&
  inp.controls.handbrake

/-- Source `applyDriftPhysics`: rear wheel body material friction set to
`REAR_FRICTION_HANDBRAKE`; `angularDamping` multiplied by
`DRIFT_STABILITY_FACTOR`. -/
def applyDriftPhysicsF (s : CarState) : CarState :=
  { s with rearFriction := REAR_FRICTION_HANDBRAKE
           angularDamping := s.angularDamping * DRIFT_STABILITY_FACTOR }

/-- Source `restoreNormalPhysics`: rear wheel body material friction set to
`REAR_FRICTION_NORMAL`; `angularDamping` set back to
`BASE_ANGULAR_DAMPING`. -/
def restoreNormalPhysicsF (s : CarState) : CarState :=
  { s with rearFriction := REAR_FRICTION_NORMAL
           angularDamping := BASE_ANGULAR_DAMPING }

/-- Source `updateDriftPhysics(speed, angularVelocity, lateralVelocity)`: the
correction torque and drift propulsion force go to the external solver; the
modelled effect is the rear friction scaling by
`Math.max(0.3, 1 - (lateralVelocity/speed) * DRIFT_MOMENTUM_FACTOR)`. -/
def updateDriftPhysicsF (s : CarState) (inp : TickIn) : CarState :=
  let lateralFrictionFactor :=
    max (0.3 : ℚ) (1 - (|inp.velX| / inp.speed) * DRIFT_MOMENTUM_FACTOR)
  { s with rearFriction := REAR_FRICTION_HANDBRAKE * lateralFrictionFactor }

/-- Source `updateDriftState`: evaluates the four-condition drift predicate, runs
the edge-triggered enter / exit hooks against the current
`isDriftDetected` flag (which `handleBraking` has just overwritten with the
side-impulse detection earlier in the same tick), and, when the flag ends up
set, runs the continuous in-drift adjustment. -/
def updateDriftStateF (s : CarState) (inp : TickIn) : CarState :=
  let isDrifting := driftCond inp
  let s1 :=
    if isDrifting && !s.isDriftDetected then
      applyDriftPhysicsF { s with isDriftDetected := true }
    else if !isDrifting && s.isDriftDetected then
      restoreNormalPhysicsF { s with isDriftDetected := false }
    else s
  if s1.isDriftDetected then updateDriftPhysicsF s1 inp else s1

/-! The full Car.update tick (Car.ts lines 812-823)

`update(delta)` runs `updateVehicleControls` (handleAcceleration,
handleBraking, handleSteering), `applyAdvancedAerodynamics` (forces to the
external solver only), `updateWheels` / `updateModel` (render transforms
only), and finally `updateDriftState`.  Only `handleBraking`,
`handleSteering` and `updateDriftState` write the modelled fields. -/

def carTick (s : CarState) (inp : TickIn) : CarState :=
  updateDriftStateF (handleSteeringState (handleBrakingState s inp) inp) inp

/-- A tick is a drift-entry tick when `updateDriftState` takes its
edge-triggered entry branch: the four-condition drift predicate holds while
the `isDriftDetected` flag — overwritten earlier in the same tick by the
side-impulse detection of `handleBraking` — is false. -/
def driftEntryTick (inp : TickIn) : Prop :=
  driftCond inp = true ∧ sideImpulseDetect inp = false

/-! Engine force (handleAcceleration, Car.ts lines 837-872) -/

/-- The per-wheel engine force scalars passed to
`vehicle.applyEngineForce(force, i)`; wheels 0,1 are front, 2,3 rear. -/
structure EngineForces where
  w0 : ℚ
  w1 : ℚ
  w2 : ℚ
  w3 : ℚ
deriving DecidableEq, Repr

/-- The no-throttle engine brake magnitude of `handleAcceleration`:
`Math.min(this.getSpeed() * ENGINE_BRAKE_FACTOR, maxForce * 0.3)` with
`maxForce = PHYSICS_CONFIG.MAX_FORCE`. -/
def engineBrakeForce (speed : ℚ) : ℚ :=
  min (speed * ENGINE_BRAKE_FACTOR) (MAX_FORCE * 0.3)

/-- Source `handleAcceleration(maxForce, delta)`: reverse (key `'s'`) checked first,
then forward (key `'z'`); with neither throttle held, the engine brake force
`Math.min(speed * ENGINE_BRAKE_FACTOR, maxForce * 0.3)` is applied against
`Math.sign(this.body.velocity.z)` with a 70 % rear / 30 % front split.
The reverse branch scales by `REVERSE_POWER_RATIO` = 0.7. -/
def handleAccelerationForces (c : Controls) (speed velZ : ℚ) : EngineForces :=
  let speedFactorAccel := max MIN_SPEED_FACTOR (1 - speed / MAX_SPEED_KMH)
  let engineForce := MAX_FORCE * speedFactorAccel
  if c.reverse then
    let reverseForce := engineForce * 0.7
    { w0 := -reverseForce * 0.3, w1 := -reverseForce * 0.3
      w2 := -reverseForce * 0.7, w3 := -reverseForce * 0.7 }
  else if c.forward then
    { w0 := engineForce * 0.3, w1 := engineForce * 0.3
      w2 := engineForce * 0.7, w3 := engineForce * 0.7 }
  else
    { w0 := -engineBrakeForce speed * jsSign velZ * 0.3
      w1 := -engineBrakeForce speed * jsSign velZ * 0.3
      w2 := -engineBrakeForce speed * jsSign velZ * 0.7
      w3 := -engineBrakeForce speed * jsSign velZ * 0.7 }

/-! Speed factor (handleAcceleration, Car.ts lines 842-845) -/

/-- Source `Math.max(MIN_SPEED_FACTOR, 1 - speed / MAX_SPEED_KMH)`. -/
def speedFactor (s : ℚ) : ℚ := max MIN_SPEED_FACTOR (1 - s / MAX_SPEED_KMH)

/-! Steering factor with JavaScript NaN semantics
(handleSteering, Car.ts lines 918-926)

A JavaScript number is modelled as `Option ℚ`, `none` standing for NaN. -/

/-- JavaScript `Math.max`: NaN if any argument is NaN. -/
def jsMax : Option ℚ → Option ℚ → Option ℚ
  | some a, some b => some (max a b)
  | _, _ => none

/-- JavaScript `Math.pow(base, 1.4)` with the non-integer exponent
`STEERING_POWER_FACTOR = 1.4`: NaN for a negative base (ECMAScript: a
negative base with a finite non-integer exponent yields NaN).  For a
nonnegative base the (irrational) numeric value is supplied by `powVal`;
none of the claims about this computation depend on that value, only on
its definedness and on the `Math.max` floor. -/
def jsPowSteer (powVal : ℚ → ℚ) (base : ℚ) : Option ℚ :=
  if base < 0 then none else some (powVal base)

/-- The steering speed factor of `handleSteering`:
`Math.max(MIN_STEERING_FACTOR, Math.pow(1 - speed/MAX_STEERING_SPEED_KMH, 1.4))`. -/
def steeringSpeedFactor (powVal : ℚ → ℚ) (speed : ℚ) : Option ℚ :=
  jsMax (some MIN_STEERING_FACTOR)
    (jsPowSteer powVal (1 - speed / MAX_STEERING_SPEED_KMH))

/-! Fixed-timestep scheduler (Scene.gameLoop, scene.ts lines 228-263) -/

/-- Source `deltaTime = Math.max(Math.min(dt, MAX_DELTA), MIN_DELTA); deltaTime *= TIME_SCALE`. -/
def clampDelta (dt : ℚ) : ℚ := max (min dt MAX_DELTA) MIN_DELTA * TIME_SCALE

/-- The catch-up while-loop
`while (accumulator >= FIXED_TIMESTEP) accumulator -= FIXED_TIMESTEP`,
unrolled with explicit fuel; with enough fuel this is exactly the loop
(stability over fuel is proved below). -/
def drainAccum : Nat → ℚ → ℚ
  | 0, acc => acc
  | fuel + 1, acc =>
      if FIXED_TIMESTEP ≤ acc then drainAccum fuel (acc - FIXED_TIMESTEP) else acc

/-- The number of `updatePhysics(FIXED_TIMESTEP)` calls the while-loop makes,
with the same fuel-based unrolling. -/
def stepsTaken : Nat → ℚ → Nat
  | 0, _ => 0
  | fuel + 1, acc =>
      if FIXED_TIMESTEP ≤ acc then stepsTaken fuel (acc - FIXED_TIMESTEP) + 1 else 0

/-- One `gameLoop` frame acting on the accumulator: clamp the frame delta,
add it, and drain.  Fuel 2 is exact for every accumulator in
`[0, FIXED_TIMESTEP)` since the clamped delta is at most `MAX_DELTA`. -/
def gameLoopAccum (acc dt : ℚ) : ℚ := drainAccum 2 (acc + clampDelta dt)

/-! Chase camera (ThirdPersonCamera, src/unnamed/part_005 lines 119-254) -/

/-- The mutable camera state used by the follow algorithm: the camera
position, the clamped smoothing factor, and the two base offsets. -/
structure CameraState where
  position : Vec3
  smoothness : ℚ
  baseHeight : ℚ
  baseDistance : ℚ
deriving DecidableEq, Repr

/-- THREE.Vector3.lerp: `this += (target - this) * alpha`, componentwise. -/
def lerpVec (p target : Vec3) (alpha : ℚ) : Vec3 :=
  { x := p.x + (target.x - p.x) * alpha
    y := p.y + (target.y - p.y) * alpha
    z := p.z + (target.z - p.z) * alpha }

/-- Source `calculateDesiredPosition(targetPosition, targetRotation)`:
`offsetX = -sin(angle) * BASE_DISTANCE`, `offsetZ = -cos(angle) * BASE_DISTANCE`,
desired = `(tx - offsetX, ty + BASE_HEIGHT, tz - offsetZ)`.  `sinY`/`cosY`
are the values of `Math.sin`/`Math.cos` of the vehicle yaw. -/
def calcDesiredPosition (st : CameraState) (targetPos : Vec3) (sinY cosY : ℚ) : Vec3 :=
  { x := targetPos.x + sinY * st.baseDistance
    y := targetPos.y + st.baseHeight
    z := targetPos.z + cosY * st.baseDistance }

/-- One Following-mode `update()` on the camera position:
compute the desired position freshly, then `smoothFollow` lerps the camera
position towards it by the smoothness factor. -/
def cameraFollowUpdate (st : CameraState) (targetPos : Vec3) (sinY cosY : ℚ) : CameraState :=
  { st with position :=
      lerpVec st.position (calcDesiredPosition st targetPos sinY cosY) st.smoothness }

/-- Source `setSmoothness(value)`: `Math.max(0.01, Math.min(1, value))`. -/
def setSmoothnessVal (value : ℚ) : ℚ := max 0.01 (min 1 value)

/-- Source `p` lies on the closed line segment from `a` to `b`. -/
def onSegment (a b p : Vec3) : Prop :=
  ∃ u : ℚ, 0 ≤ u ∧ u ≤ 1 ∧
    p = { x := a.x + (b.x - a.x) * u
          y := a.y + (b.y - a.y) * u
          z := a.z + (b.z - a.z) * u : Vec3 }

/-! CarControls (Car.ts lines 1313-1373, the normalizeKey variant) -/

/-- The `CarControls` instance state: the `keys` dictionary (a total map
with JavaScript `|| false` default) and the `isEnabled` gate. -/
structure CarControlsState where
  keys : String → Bool
  isEnabled : Bool

/-- Source `normalizeKey`: lower-case the key and map both `' '` and `'space'`
to `'space'`. -/
def normalizeKey (key : String) : String :=
  let lowerKey := key.toLower
  if lowerKey = " " ∨ lowerKey = "space" then "space" else lowerKey

/-- Source `isKeyPressed(key)`: `this.keys[this.normalizeKey(key)] || false`. -/
def isKeyPressed (s : CarControlsState) (key : String) : Bool :=
  s.keys (normalizeKey key)

/-- The keydown listener: records the normalized key as pressed when the
controls are enabled. -/
def keydownEvent (s : CarControlsState) (key : String) : CarControlsState :=
  if s.isEnabled then
    { s with keys := fun k => if k = normalizeKey key then true else s.keys k }
  else s

/-- The keyup listener: records the normalized key as released when the
controls are enabled. -/
def keyupEvent (s : CarControlsState) (key : String) : CarControlsState :=
  if s.isEnabled then
    { s with keys := fun k => if k = normalizeKey key then false else s.keys k }
  else s

/-- Source `enable()`. -/
def enableControls (s : CarControlsState) : CarControlsState :=
  { s with isEnabled := true }

/-- Source `disable()`: `this.isEnabled = false; this.keys = {}` — the fresh empty
dictionary reports every key as unpressed. -/
def disableControls (_s : CarControlsState) : CarControlsState :=
  { keys := fun _ => false, isEnabled := false }

/-- A raw keyboard / gating event history. -/
inductive ControlEvent where
  | down (key : String)
  | up (key : String)
  | enable
  | disable
deriving DecidableEq, Repr

/-- Fold a history of events over the controls state. -/
def applyEvents (s : CarControlsState) : List ControlEvent → CarControlsState
  | [] => s
  | ControlEvent.down k :: rest => applyEvents (keydownEvent s k) rest
  | ControlEvent.up k :: rest => applyEvents (keyupEvent s k) rest
  | ControlEvent.enable :: rest => applyEvents (enableControls s) rest
  | ControlEvent.disable :: rest => applyEvents (disableControls s) rest

/-- Constructor state: empty key map, then `enable()` is called by `Car`. -/
def initControls : CarControlsState :=
  { keys := fun _ => false, isEnabled := true }

/-! Concrete tick inputs used by counterexamples and witnesses. -/

/-- A tick with the car at rest and no key held (all body quantities 0,
`Math.pow(1 - 0/200, 1.4) = 1`). -/
def restTickIn : TickIn :=
  { controls := ⟨false, false, false, false, false⟩
    speed := 0, velX := 0, velZ := 0, angularVelY := 0, localVelX := 0
    sideImpulseL := 0, sideImpulseR := 0, steerPow := 1 }

/-- A tick satisfying all four drift entry conditions: velocity (6, 0, 40)
(so `getSpeed` is not rational here; 50 is used as an upper-consistent
stand-in — the drift conditions only compare `speed > 40`), handbrake held,
yaw rate 1, rear side impulses still small so the side-impulse detection is
off and the edge-triggered entry hook fires. -/
def enterTickIn : TickIn :=
  { controls := ⟨false, false, true, false, false⟩
    speed := 50, velX := 6, velZ := 40, angularVelY := 1, localVelX := 6
    sideImpulseL := 0, sideImpulseR := 0, steerPow := 0 }

/-- The following tick with the handbrake released and the rear side
impulses having settled below the detection threshold. -/
def exitTickIn : TickIn :=
  { controls := ⟨false, false, false, false, false⟩
    speed := 50, velX := 6, velZ := 40, angularVelY := 1, localVelX := 6
    sideImpulseL := 0, sideImpulseR := 0, steerPow := 0 }

/-! Helper lemmas: how each stage of the tick acts on each modelled field. -/

theorem handleBrakingState_isDriftDetected (s : CarState) (inp : TickIn) :
    (handleBrakingState s inp).isDriftDetected = sideImpulseDetect inp := rfl

theorem handleBrakingState_angularDamping (s : CarState) (inp : TickIn) :
    (handleBrakingState s inp).angularDamping = s.angularDamping := by
  unfold handleBrakingState
  split <;> rfl

theorem handleBrakingState_linearDamping (s : CarState) (inp : TickIn) :
    (handleBrakingState s inp).linearDamping = s.linearDamping := by
  unfold handleBrakingState
  split <;> rfl

theorem handleBrakingState_rearFriction (s : CarState) (inp : TickIn) :
    (handleBrakingState s inp).rearFriction = s.rearFriction := by
  unfold handleBrakingState
  split <;> rfl

theorem handleSteeringState_isDriftDetected (s : CarState) (inp : TickIn) :
    (handleSteeringState s inp).isDriftDetected = s.isDriftDetected := by
  unfold handleSteeringState
  split <;> rfl

theorem handleSteeringState_angularDamping (s : CarState) (inp : TickIn) :
    (handleSteeringState s inp).angularDamping =
      BASE_ANGULAR_DAMPING +
        |targetSteeringOf inp| * inp.speed * TURN_RESISTANCE_FACTOR := by
  unfold handleSteeringState
  split <;> rfl

theorem handleSteeringState_linearDamping (s : CarState) (inp : TickIn) :
    (handleSteeringState s inp).linearDamping =
      if MIN_SPEED_FOR_LATERAL_RESISTANCE < inp.speed then
        BASE_LINEAR_DAMPING + |inp.localVelX| * LATERAL_RESISTANCE_FACTOR
      else s.linearDamping := by
  unfold handleSteeringState
  split <;> rfl

theorem handleSteeringState_rearFriction (s : CarState) (inp : TickIn) :
    (handleSteeringState s inp).rearFriction = s.rearFriction := by
  unfold handleSteeringState
  split <;> rfl

theorem updateDriftStateF_isDriftDetected (s : CarState) (inp : TickIn) :
    (updateDriftStateF s inp).isDriftDetected = driftCond inp := by
  unfold updateDriftStateF applyDriftPhysicsF restoreNormalPhysicsF updateDriftPhysicsF
  cases hd : driftCond inp <;> cases hs : s.isDriftDetected <;> simp [hd, hs]

theorem updateDriftStateF_linearDamping (s : CarState) (inp : TickIn) :
    (updateDriftStateF s inp).linearDamping = s.linearDamping := by
  unfold updateDriftStateF applyDriftPhysicsF restoreNormalPhysicsF updateDriftPhysicsF
  cases hd : driftCond inp <;> cases hs : s.isDriftDetected <;> simp [hd, hs]

theorem updateDriftStateF_angularDamping_exit (s : CarState) (inp : TickIn)
    (hd : driftCond inp = false) (hs : s.isDriftDetected = true) :
    (updateDriftStateF s inp).angularDamping = BASE_ANGULAR_DAMPING := by
  unfold updateDriftStateF applyDriftPhysicsF restoreNormalPhysicsF updateDriftPhysicsF
  simp [hd, hs]

theorem updateDriftStateF_angularDamping_same (s : CarState) (inp : TickIn)
    (h : driftCond inp = s.isDriftDetected) :
    (updateDriftStateF s inp).angularDamping = s.angularDamping := by
  unfold updateDriftStateF applyDriftPhysicsF restoreNormalPhysicsF updateDriftPhysicsF
  cases hd : driftCond inp <;> rw [hd] at h <;> simp [hd, ← h]

theorem updateDriftStateF_rearFriction_exit (s : CarState) (inp : TickIn)
    (hd : driftCond inp = false) (hs : s.isDriftDetected = true) :
    (updateDriftStateF s inp).rearFriction = REAR_FRICTION_NORMAL := by
  unfold updateDriftStateF applyDriftPhysicsF restoreNormalPhysicsF updateDriftPhysicsF
  simp [hd, hs]

/-! Helper lemmas for the fixed-timestep while-loop. -/

theorem FIXED_TIMESTEP_pos : 0 < FIXED_TIMESTEP := by norm_num [FIXED_TIMESTEP]

theorem drainAccum_of_lt {acc : ℚ} (h : acc < FIXED_TIMESTEP) :
    ∀ fuel, drainAccum fuel acc = acc := by
  intro fuel
  cases fuel with
  | zero => rfl
  | succ n => unfold drainAccum; rw [if_neg (not_le.mpr h)]

theorem drainAccum_bounds :
    ∀ (fuel : Nat) (acc : ℚ), 0 ≤ acc → acc < ((fuel : ℚ) + 1) * FIXED_TIMESTEP →
      0 ≤ drainAccum fuel acc ∧ drainAccum fuel acc < FIXED_TIMESTEP := by
  intro fuel
  induction fuel with
  | zero =>
      intro acc h0 h1
      unfold drainAccum
      constructor
      · exact h0
      · simpa using h1
  | succ n ih =>
      intro acc h0 h1
      unfold drainAccum
      split
      · next h =>
          refine ih _ (by linarith) ?_
          have : ((n : ℚ) + 1 + 1) * FIXED_TIMESTEP
              = ((n : ℚ) + 1) * FIXED_TIMESTEP + FIXED_TIMESTEP := by ring
          push_cast at h1
          linarith
      · next h => exact ⟨h0, not_le.mp h⟩

theorem drainAccum_stable :
    ∀ (fuel extra : Nat) (acc : ℚ), 0 ≤ acc → acc < ((fuel : ℚ) + 1) * FIXED_TIMESTEP →
      drainAccum (fuel + extra) acc = drainAccum fuel acc := by
  intro fuel
  induction fuel with
  | zero =>
      intro extra acc h0 h1
      have hlt : acc < FIXED_TIMESTEP := by simpa using h1
      rw [drainAccum_of_lt hlt, drainAccum_of_lt hlt]
  | succ n ih =>
      intro extra acc h0 h1
      have hstep : n + 1 + extra = (n + extra) + 1 := by omega
      rw [hstep]
      unfold drainAccum
      split
      · next h =>
          refine ih extra _ (by linarith) ?_
          push_cast at h1
          linarith
      · rfl

theorem stepsTaken_of_lt {acc : ℚ} (h : acc < FIXED_TIMESTEP) :
    ∀ fuel, stepsTaken fuel acc = 0 := by
  intro fuel
  cases fuel with
  | zero => rfl
  | succ n => unfold stepsTaken; rw [if_neg (not_le.mpr h)]

theorem stepsTaken_le_one :
    ∀ (fuel : Nat) (acc : ℚ), acc < 2 * FIXED_TIMESTEP → stepsTaken fuel acc ≤ 1 := by
  intro fuel acc h
  cases fuel with
  | zero => exact Nat.zero_le 1
  | succ n =>
      unfold stepsTaken
      split
      · next hle =>
          have : acc - FIXED_TIMESTEP < FIXED_TIMESTEP := by linarith
          rw [stepsTaken_of_lt this]
      · exact Nat.zero_le 1

theorem clampDelta_le (dt : ℚ) : clampDelta dt ≤ MAX_DELTA := by
  unfold clampDelta TIME_SCALE
  rw [mul_one]
  exact max_le (min_le_right _ _) (by norm_num [MIN_DELTA, MAX_DELTA])

theorem clampDelta_nonneg (dt : ℚ) : 0 ≤ clampDelta dt := by
  unfold clampDelta TIME_SCALE
  rw [mul_one]
  exact le_trans (by norm_num [MIN_DELTA]) (le_max_right _ _)

/-! Claim theorems -/

/-- C4: for every frame of `Scene.gameLoop`, if the physics accumulator is
in `[0, FIXED_TIMESTEP)` before the frame, then after the clamped frame
delta is accumulated and the fixed-step while-loop finishes, the
accumulator is again in `[0, FIXED_TIMESTEP)`; moreover fuel 2 already
computes the full while-loop (any extra fuel leaves the result
unchanged). -/
theorem c4_accumulator_invariant (acc dt : ℚ)
    (h0 : 0 ≤ acc) (h1 : acc < FIXED_TIMESTEP) :
    (0 ≤ gameLoopAccum acc dt ∧ gameLoopAccum acc dt < FIXED_TIMESTEP) ∧
    ∀ extra : Nat,
      drainAccum (2 + extra) (acc + clampDelta dt) = gameLoopAccum acc dt := by
  have hcl : clampDelta dt ≤ MAX_DELTA := clampDelta_le dt
  have hcn : 0 ≤ clampDelta dt := clampDelta_nonneg dt
  have hMD : MAX_DELTA = FIXED_TIMESTEP := by norm_num [MAX_DELTA, FIXED_TIMESTEP]
  have hsum0 : 0 ≤ acc + clampDelta dt := by linarith
  have hsum : acc + clampDelta dt < (((2 : Nat) : ℚ) + 1) * FIXED_TIMESTEP := by
    push_cast
    have := FIXED_TIMESTEP_pos
    rw [hMD] at hcl
    linarith
  constructor
  · exact drainAccum_bounds 2 _ hsum0 hsum
  · intro extra
    exact drainAccum_stable 2 extra _ hsum0 hsum

/-- Witness for C4 at the concrete frame: accumulator 1/120, raw frame
delta 5 seconds. -/
theorem c4_accumulator_invariant_witness :
    (0 ≤ (1/120 : ℚ) ∧ (1/120 : ℚ) < FIXED_TIMESTEP) ∧
    (0 ≤ gameLoopAccum (1/120) 5 ∧ gameLoopAccum (1/120) 5 < FIXED_TIMESTEP) :=
  ⟨⟨by norm_num, by norm_num [FIXED_TIMESTEP]⟩,
   (c4_accumulator_invariant (1/120) 5 (by norm_num)
      (by norm_num [FIXED_TIMESTEP])).1⟩

/-- C7: the frame delta is clamped to at most `MAX_DELTA` before being
accumulated, so from any accumulator in `[0, FIXED_TIMESTEP)` the fixed-step
while-loop of a single frame executes at most one physics step — a constant
bound independent of the raw frame delta (even a 5-second stall). -/
theorem c7_steps_bounded (acc dt : ℚ)
    (h0 : 0 ≤ acc) (h1 : acc < FIXED_TIMESTEP) :
    clampDelta dt ≤ MAX_DELTA ∧
    ∀ fuel : Nat, stepsTaken fuel (acc + clampDelta dt) ≤ 1 := by
  refine ⟨clampDelta_le dt, fun fuel => stepsTaken_le_one fuel _ ?_⟩
  have hcl : clampDelta dt ≤ MAX_DELTA := clampDelta_le dt
  have hMD : MAX_DELTA = FIXED_TIMESTEP := by norm_num [MAX_DELTA, FIXED_TIMESTEP]
  rw [hMD] at hcl
  linarith

/-- Witness for C7 at the concrete stalled frame: accumulator 0, raw frame
delta 5 seconds, any fuel. -/
theorem c7_steps_bounded_witness :
    clampDelta 5 ≤ MAX_DELTA ∧ stepsTaken 1000 ((0 : ℚ) + clampDelta 5) ≤ 1 :=
  ⟨(c7_steps_bounded 0 5 (by norm_num) (by norm_num [FIXED_TIMESTEP])).1,
   (c7_steps_bounded 0 5 (by norm_num) (by norm_num [FIXED_TIMESTEP])).2 1000⟩

/-- C5: for every speed `s ≥ 0` the engine-force speed factor
`max(MIN_SPEED_FACTOR, 1 - s / MAX_SPEED_KMH)` lies in
`[MIN_SPEED_FACTOR, 1]`, and it is monotonically non-increasing in the
speed. -/
theorem c5_speed_factor (s t : ℚ) (h0 : 0 ≤ s) :
    (MIN_SPEED_FACTOR ≤ speedFactor s ∧ speedFactor s ≤ 1) ∧
    (s ≤ t → speedFactor t ≤ speedFactor s) := by
  unfold speedFactor
  constructor
  · constructor
    · exact le_max_left _ _
    · apply max_le
      · norm_num [MIN_SPEED_FACTOR]
      · have hdiv : 0 ≤ s / MAX_SPEED_KMH := by
          apply div_nonneg h0
          norm_num [MAX_SPEED_KMH]
        linarith
  · intro hst
    apply max_le_max le_rfl
    have : s / MAX_SPEED_KMH ≤ t / MAX_SPEED_KMH := by
      apply div_le_div_of_nonneg_right hst <;> norm_num [MAX_SPEED_KMH]
    linarith

/-- Witness for C5 at the concrete speeds 3 and 5. -/
theorem c5_speed_factor_witness :
    (MIN_SPEED_FACTOR ≤ speedFactor 3 ∧ speedFactor 3 ≤ 1) ∧
    speedFactor 5 ≤ speedFactor 3 :=
  ⟨(c5_speed_factor 3 5 (by norm_num)).1,
   (c5_speed_factor 3 5 (by norm_num)).2 (by norm_num)⟩

/-- C6 counterexample: at speed 400 (above `MAX_STEERING_SPEED_KMH = 200`)
the base `1 - 400/200 = -1` is negative, so JavaScript `Math.pow` with the
non-integer exponent 1.4 yields NaN, and `Math.max(0.3, NaN)` is NaN: the
steering factor — and hence the applied steering angle — is NaN, not a
well-defined value `≥ MIN_STEERING_FACTOR`.  The `powVal` argument (the
numeric value of `Math.pow` on nonnegative bases) is irrelevant in this
regime; it is instantiated with the identity function. -/
theorem c6_counterexample : steeringSpeedFactor (fun b => b) 400 = none := by
  have hbase : (1 : ℚ) - 400 / MAX_STEERING_SPEED_KMH < 0 := by
    norm_num [MAX_STEERING_SPEED_KMH]
  unfold steeringSpeedFactor jsPowSteer
  rw [if_pos hbase]
  rfl

/-- C6 amended: the `Math.max(MIN_STEERING_FACTOR, ·)` floor guards the
steering factor only for speeds up to `MAX_STEERING_SPEED_KMH`: there the
factor is a well-defined value `≥ MIN_STEERING_FACTOR` (whatever the numeric
value `powVal` of `Math.pow` on the nonnegative base); for any larger speed
the base is negative, `Math.pow` returns NaN and `Math.max` propagates it,
so the steering factor is NaN (undefined). -/
theorem c6_steering_factor_guard (powVal : ℚ → ℚ) (s : ℚ) (h0 : 0 ≤ s) :
    (s ≤ MAX_STEERING_SPEED_KMH →
      ∃ q : ℚ, steeringSpeedFactor powVal s = some q ∧ MIN_STEERING_FACTOR ≤ q) ∧
    (MAX_STEERING_SPEED_KMH < s → steeringSpeedFactor powVal s = none) := by
  constructor
  · intro hle
    have hbase : 0 ≤ 1 - s / MAX_STEERING_SPEED_KMH := by
      have : s / MAX_STEERING_SPEED_KMH ≤ 1 := by
        rw [div_le_one (by norm_num [MAX_STEERING_SPEED_KMH])]
        exact hle
      linarith
    refine ⟨max MIN_STEERING_FACTOR (powVal (1 - s / MAX_STEERING_SPEED_KMH)),
      ?_, le_max_left _ _⟩
    unfold steeringSpeedFactor jsPowSteer
    rw [if_neg (not_lt.mpr hbase)]
    rfl
  · intro hgt
    have hbase : 1 - s / MAX_STEERING_SPEED_KMH < 0 := by
      have : 1 < s / MAX_STEERING_SPEED_KMH := by
        rw [lt_div_iff (by norm_num [MAX_STEERING_SPEED_KMH])]
        linarith [hgt, (by norm_num [MAX_STEERING_SPEED_KMH] :
          MAX_STEERING_SPEED_KMH = (200 : ℚ))]
      linarith
    unfold steeringSpeedFactor jsPowSteer
    rw [if_pos hbase]
    rfl

/-- Witness for C6 amended at the concrete speed 100 with the identity as
the pow-value function. -/
theorem c6_steering_factor_guard_witness :
    ∃ q : ℚ, steeringSpeedFactor (fun b => b) 100 = some q ∧
      MIN_STEERING_FACTOR ≤ q :=
  (c6_steering_factor_guard (fun b => b) 100 (by norm_num)).1
    (by norm_num [MAX_STEERING_SPEED_KMH])

/-- C8: in Following mode with smoothness in `(0, 1]`, the camera position
after `update()` lies on the segment between its pre-update position and the
freshly computed desired position (the lerp never overshoots); moreover
`setSmoothness` always produces a value in `(0, 1]`, so every settable
smoothness satisfies the hypothesis. -/
theorem c8_camera_no_overshoot (st : CameraState) (targetPos : Vec3)
    (sinY cosY : ℚ) (h0 : 0 < st.smoothness) (h1 : st.smoothness ≤ 1) :
    onSegment st.position (calcDesiredPosition st targetPos sinY cosY)
      (cameraFollowUpdate st targetPos sinY cosY).position ∧
    ∀ v : ℚ, 0 < setSmoothnessVal v ∧ setSmoothnessVal v ≤ 1 := by
  constructor
  · exact ⟨st.smoothness, le_of_lt h0, h1, rfl⟩
  · intro v
    unfold setSmoothnessVal
    constructor
    · exact lt_of_lt_of_le (by norm_num) (le_max_left _ _)
    · exact max_le (by norm_num) (min_le_left _ _)

/-- Witness for C8 at a concrete camera state (position at the origin,
smoothness 1/10, default base height 2 and base distance 6) following a
vehicle at (10, 0, 0) with yaw 0 (sin 0, cos 1). -/
theorem c8_camera_no_overshoot_witness :
    onSegment ({ position := ⟨0, 0, 0⟩, smoothness := 1/10,
                 baseHeight := 2, baseDistance := 6 } : CameraState).position
      (calcDesiredPosition
        { position := ⟨0, 0, 0⟩, smoothness := 1/10,
          baseHeight := 2, baseDistance := 6 } ⟨10, 0, 0⟩ 0 1)
      (cameraFollowUpdate
        { position := ⟨0, 0, 0⟩, smoothness := 1/10,
          baseHeight := 2, baseDistance := 6 } ⟨10, 0, 0⟩ 0 1).position :=
  (c8_camera_no_overshoot
    { position := ⟨0, 0, 0⟩, smoothness := 1/10, baseHeight := 2, baseDistance := 6 }
    ⟨10, 0, 0⟩ 0 1 (by norm_num) (by norm_num)).1

/-- C9 counterexample: with the vehicle travelling at speed 10 purely along
the world x axis (velocity (10, 0, 0): `getSpeed` = √(10² + 0²) = 10, world
z velocity 0) and neither throttle pressed, every engine-braking force is 0
— because the force is scaled by `Math.sign(velocity.z)` — even though the
claimed magnitude `min(speed · ENGINE_BRAKE_FACTOR, 0.3 · maxForce) = 30`
is nonzero; no force opposes the actual (x-direction) travel. -/
theorem c9_counterexample :
    handleAccelerationForces ⟨false, false, false, false, false⟩ 10 0 =
      ({ w0 := 0, w1 := 0, w2 := 0, w3 := 0 } : EngineForces) ∧
    engineBrakeForce 10 = 30 := by
  constructor
  · unfold handleAccelerationForces jsSign
    norm_num
  · unfold engineBrakeForce ENGINE_BRAKE_FACTOR MAX_FORCE
    norm_num

/-- C9 amended: on every no-throttle tick the engine braking applies, along
each wheel's forward axis, the scalar
`-min(speed · ENGINE_BRAKE_FACTOR, 0.3 · maxForce) · sign(velocity.z)`
weighted 70 % on each rear wheel and 30 % on each front wheel; its magnitude
is capped at 30 % of `maxForce`, it opposes the sign of the world-frame z
velocity component, and it vanishes whenever that component is zero — it is
not in general opposite to the full direction of travel. -/
theorem c9_engine_braking (c : Controls) (speed velZ : ℚ)
    (hf : c.forward = false) (hr : c.reverse = false) (hs : 0 ≤ speed) :
    (handleAccelerationForces c speed velZ).w2 =
        -engineBrakeForce speed * jsSign velZ * 0.7 ∧
    (handleAccelerationForces c speed velZ).w3 =
        -engineBrakeForce speed * jsSign velZ * 0.7 ∧
    (handleAccelerationForces c speed velZ).w0 =
        -engineBrakeForce speed * jsSign velZ * 0.3 ∧
    (handleAccelerationForces c speed velZ).w1 =
        -engineBrakeForce speed * jsSign velZ * 0.3 ∧
    engineBrakeForce speed ≤ MAX_FORCE * 0.3 ∧
    (0 < velZ → (handleAccelerationForces c speed velZ).w2 ≤ 0) ∧
    (velZ < 0 → 0 ≤ (handleAccelerationForces c speed velZ).w2) ∧
    (velZ = 0 → (handleAccelerationForces c speed velZ).w2 = 0 ∧
                (handleAccelerationForces c speed velZ).w0 = 0) := by
  have hebf : 0 ≤ engineBrakeForce speed := by
    unfold engineBrakeForce
    apply le_min
    · apply mul_nonneg hs
      norm_num [ENGINE_BRAKE_FACTOR]
    · norm_num [MAX_FORCE]
  unfold handleAccelerationForces
  rw [hf, hr]
  simp only [Bool.false_eq_true, if_false]
  refine ⟨trivial, trivial, trivial, trivial, min_le_right _ _, ?_, ?_, ?_⟩
  · intro hz
    unfold jsSign
    rw [if_pos hz]
    nlinarith
  · intro hz
    unfold jsSign
    rw [if_neg (by linarith), if_pos hz]
    nlinarith
  · intro hz
    unfold jsSign
    rw [hz]
    norm_num

/-- Witness for C9 amended at the concrete no-throttle tick with speed 5 and
world z velocity 2. -/
theorem c9_engine_braking_witness :
    (handleAccelerationForces ⟨false, false, false, false, false⟩ 5 2).w2 =
        -engineBrakeForce 5 * jsSign 2 * 0.7 ∧
    engineBrakeForce 5 ≤ MAX_FORCE * 0.3 ∧
    (handleAccelerationForces ⟨false, false, false, false, false⟩ 5 2).w2 ≤ 0 :=
  ⟨(c9_engine_braking ⟨false, false, false, false, false⟩ 5 2 rfl rfl
      (by norm_num)).1,
   (c9_engine_braking ⟨false, false, false, false, false⟩ 5 2 rfl rfl
      (by norm_num)).2.2.2.2.1,
   (c9_engine_braking ⟨false, false, false, false, false⟩ 5 2 rfl rfl
      (by norm_num)).2.2.2.2.2.1 (by norm_num)⟩

/-- C2: at the end of a tick the drift state is Drifting exactly when all
four entry conditions hold on that tick (`speed > DRIFT_INITIATION_SPEED`,
`|angularVelocity.y| > DRIFT_ANGLE_THRESHOLD`, lateral velocity `> 5`, and
the handbrake held); in particular the state becomes Drifting only if all
four hold, and releasing the handbrake alone — whatever the other three
conditions and the previous state — leaves the state Normal within one
tick. -/
theorem c2_drift_entry_exit (s : CarState) (inp : TickIn) :
    (carTick s inp).isDriftDetected = true ↔
      (DRIFT_INITIATION_SPEED < inp.speed ∧
       DRIFT_ANGLE_THRESHOLD < |inp.angularVelY| ∧
       5 < |inp.velX| ∧
       inp.controls.handbrake = true) := by
  have h : (carTick s inp).isDriftDetected = driftCond inp := by
    unfold carTick
    rw [updateDriftStateF_isDriftDetected]
  rw [h]
  unfold driftCond
  simp [and_assoc]

/-- C1 counterexample: the claimed invariant
`angularDamping ≥ BASE_ANGULAR_DAMPING ∧ linearDamping ≥ BASE_LINEAR_DAMPING`
fails on reachable states: `initializePhysics` creates the body with
angularDamping 0.3 < 0.5 and linearDamping 0.05 < 0.1, and an `update()`
tick at rest (speed 0, below the lateral-resistance threshold) leaves
linearDamping at 0.05, still below its base value. -/
theorem c1_counterexample :
    initialCarState.angularDamping < BASE_ANGULAR_DAMPING ∧
    initialCarState.linearDamping < BASE_LINEAR_DAMPING ∧
    (carTick initialCarState restTickIn).linearDamping < BASE_LINEAR_DAMPING := by
  refine ⟨by norm_num [initialCarState, BASE_ANGULAR_DAMPING],
          by norm_num [initialCarState, BASE_LINEAR_DAMPING], ?_⟩
  have h1 : (carTick initialCarState restTickIn).linearDamping =
      initialCarState.linearDamping := by
    unfold carTick
    rw [updateDriftStateF_linearDamping, handleSteeringState_linearDamping,
        if_neg, handleBrakingState_linearDamping]
    norm_num [restTickIn, MIN_SPEED_FOR_LATERAL_RESISTANCE]
  rw [h1]
  norm_num [initialCarState, BASE_LINEAR_DAMPING]

/-- C1 amended: after an `update()` tick (with speed in the well-defined
steering regime `[0, MAX_STEERING_SPEED_KMH]`), `angularDamping` is at least
`BASE_ANGULAR_DAMPING` unless the tick is a drift-entry tick (on which it is
instead multiplied by `DRIFT_STABILITY_FACTOR < 1` and may fall below the
base); `linearDamping` is raised to at least `BASE_LINEAR_DAMPING` exactly
on ticks with `speed > MIN_SPEED_FOR_LATERAL_RESISTANCE`, and is otherwise
left at its previous value (which from initialisation is 0.05, below the
base). -/
theorem c1_damping_amended (s : CarState) (inp : TickIn)
    (h0 : 0 ≤ inp.speed) (h1 : inp.speed ≤ MAX_STEERING_SPEED_KMH) :
    (¬ driftEntryTick inp →
        BASE_ANGULAR_DAMPING ≤ (carTick s inp).angularDamping) ∧
    (MIN_SPEED_FOR_LATERAL_RESISTANCE < inp.speed →
        BASE_LINEAR_DAMPING ≤ (carTick s inp).linearDamping) ∧
    (inp.speed ≤ MIN_SPEED_FOR_LATERAL_RESISTANCE →
        (carTick s inp).linearDamping = s.linearDamping) := by
  unfold carTick
  have hdetect :
      (handleSteeringState (handleBrakingState s inp) inp).isDriftDetected =
        sideImpulseDetect inp := by
    rw [handleSteeringState_isDriftDetected, handleBrakingState_isDriftDetected]
  have hang :
      (handleSteeringState (handleBrakingState s inp) inp).angularDamping =
        BASE_ANGULAR_DAMPING +
          |targetSteeringOf inp| * inp.speed * TURN_RESISTANCE_FACTOR :=
    handleSteeringState_angularDamping _ _
  have htr : 0 ≤ |targetSteeringOf inp| * inp.speed * TURN_RESISTANCE_FACTOR := by
    apply mul_nonneg (mul_nonneg (abs_nonneg _) h0)
    norm_num [TURN_RESISTANCE_FACTOR]
  refine ⟨?_, ?_, ?_⟩
  · intro hne
    cases hd : driftCond inp with
    | false =>
        cases hsi : sideImpulseDetect inp with
        | false =>
            rw [updateDriftStateF_angularDamping_same _ _
                  (by rw [hd, hdetect, hsi]), hang]
            linarith
        | true =>
            rw [updateDriftStateF_angularDamping_exit _ _ hd
                  (by rw [hdetect, hsi])]
    | true =>
        cases hsi : sideImpulseDetect inp with
        | false => exact absurd ⟨hd, hsi⟩ hne
        | true =>
            rw [updateDriftStateF_angularDamping_same _ _
                  (by rw [hd, hdetect, hsi]), hang]
            linarith
  · intro hgt
    rw [updateDriftStateF_linearDamping, handleSteeringState_linearDamping,
        if_pos hgt]
    have : 0 ≤ |inp.localVelX| * LATERAL_RESISTANCE_FACTOR := by
      apply mul_nonneg (abs_nonneg _)
      norm_num [LATERAL_RESISTANCE_FACTOR]
    linarith
  · intro hle
    rw [updateDriftStateF_linearDamping, handleSteeringState_linearDamping,
        if_neg (not_lt.mpr hle), handleBrakingState_linearDamping]

/-- Witness for C1 amended at a concrete non-drift tick from the initial
state: speed 20, body-frame lateral velocity 3, no keys held. -/
theorem c1_damping_amended_witness :
    ¬ driftEntryTick
        ⟨⟨false, false, false, false, false⟩, 20, 0, 20, 0, 3, 0, 0, 1⟩ ∧
    BASE_ANGULAR_DAMPING ≤
      (carTick initialCarState
        ⟨⟨false, false, false, false, false⟩, 20, 0, 20, 0, 3, 0, 0, 1⟩).angularDamping ∧
    BASE_LINEAR_DAMPING ≤
      (carTick initialCarState
        ⟨⟨false, false, false, false, false⟩, 20, 0, 20, 0, 3, 0, 0, 1⟩).linearDamping := by
  have hne : ¬ driftEntryTick
      ⟨⟨false, false, false, false, false⟩, 20, 0, 20, 0, 3, 0, 0, 1⟩ := by
    intro h
    have := h.1
    simp [driftCond] at this
  have hmain := c1_damping_amended initialCarState
    ⟨⟨false, false, false, false, false⟩, 20, 0, 20, 0, 3, 0, 0, 1⟩
    (by norm_num) (by norm_num [MAX_STEERING_SPEED_KMH])
  exact ⟨hne, hmain.1 hne,
    hmain.2.1 (by norm_num [MIN_SPEED_FOR_LATERAL_RESISTANCE])⟩

/-- C3 counterexample: run the tick from the initial state through a
drift-entry tick (`enterTickIn`: all four conditions hold, side impulses
still small) and then an exit tick (`exitTickIn`: handbrake released, side
impulses settled).  The state returns to Normal, but the rear wheel
friction ends at `REAR_FRICTION_HANDBRAKE * lateralFrictionFactor` =
669/2500 — not the pre-drift value −1 (the cannon-es material default,
which two drift-free ticks preserve), and not even `REAR_FRICTION_NORMAL`,
because the exit transition that would call `restoreNormalPhysics` is
skipped when the side-impulse detection has already cleared the flag.  The
enter-then-exit sequence is therefore not an identity on wheel friction. -/
theorem c3_counterexample :
    (carTick (carTick initialCarState enterTickIn) exitTickIn).isDriftDetected
        = false ∧
    (carTick (carTick initialCarState restTickIn) restTickIn).rearFriction =
      initialCarState.rearFriction ∧
    (carTick (carTick initialCarState enterTickIn) exitTickIn).rearFriction ≠
      initialCarState.rearFriction ∧
    (carTick (carTick initialCarState enterTickIn) exitTickIn).rearFriction ≠
      REAR_FRICTION_NORMAL := by
  have h1 : carTick initialCarState enterTickIn =
      ⟨7/20, 11/50, true, 669/2500, 2, 3/10, 0⟩ := by
    norm_num [carTick, updateDriftStateF, handleSteeringState, handleBrakingState,
      sideImpulseDetect, driftCond, applyDriftPhysicsF, restoreNormalPhysicsF,
      updateDriftPhysicsF, targetSteeringOf, initialCarState, enterTickIn,
      BASE_LINEAR_DAMPING, BASE_ANGULAR_DAMPING, MIN_SPEED_FOR_LATERAL_RESISTANCE,
      DRIFT_INITIATION_SPEED, DRIFT_ANGLE_THRESHOLD, TURN_RESISTANCE_FACTOR,
      LATERAL_RESISTANCE_FACTOR, MIN_STEERING_FACTOR, REAR_FRICTION_NORMAL,
      REAR_FRICTION_HANDBRAKE, FRONT_FRICTION, DRIFT_MOMENTUM_FACTOR,
      DRIFT_STABILITY_FACTOR]
  have h2 : carTick (⟨7/20, 11/50, true, 669/2500, 2, 3/10, 0⟩ : CarState)
      exitTickIn = ⟨1/2, 11/50, false, 669/2500, 12/5, 2, 0⟩ := by
    norm_num [carTick, updateDriftStateF, handleSteeringState, handleBrakingState,
      sideImpulseDetect, driftCond, applyDriftPhysicsF, restoreNormalPhysicsF,
      updateDriftPhysicsF, targetSteeringOf, exitTickIn,
      BASE_LINEAR_DAMPING, BASE_ANGULAR_DAMPING, MIN_SPEED_FOR_LATERAL_RESISTANCE,
      DRIFT_INITIATION_SPEED, DRIFT_ANGLE_THRESHOLD, TURN_RESISTANCE_FACTOR,
      LATERAL_RESISTANCE_FACTOR, MIN_STEERING_FACTOR, REAR_FRICTION_NORMAL,
      REAR_FRICTION_HANDBRAKE, FRONT_FRICTION, DRIFT_MOMENTUM_FACTOR,
      DRIFT_STABILITY_FACTOR]
  have h3 : carTick initialCarState restTickIn =
      ⟨1/2, 1/20, false, -1, 12/5, 2, 0⟩ := by
    norm_num [carTick, updateDriftStateF, handleSteeringState, handleBrakingState,
      sideImpulseDetect, driftCond, applyDriftPhysicsF, restoreNormalPhysicsF,
      updateDriftPhysicsF, targetSteeringOf, initialCarState, restTickIn,
      BASE_LINEAR_DAMPING, BASE_ANGULAR_DAMPING, MIN_SPEED_FOR_LATERAL_RESISTANCE,
      DRIFT_INITIATION_SPEED, DRIFT_ANGLE_THRESHOLD, TURN_RESISTANCE_FACTOR,
      LATERAL_RESISTANCE_FACTOR, MIN_STEERING_FACTOR, REAR_FRICTION_NORMAL,
      REAR_FRICTION_HANDBRAKE, FRONT_FRICTION, DRIFT_MOMENTUM_FACTOR,
      DRIFT_STABILITY_FACTOR]
  have h4 : carTick (⟨1/2, 1/20, false, -1, 12/5, 2, 0⟩ : CarState) restTickIn =
      ⟨1/2, 1/20, false, -1, 12/5, 2, 0⟩ := by
    norm_num [carTick, updateDriftStateF, handleSteeringState, handleBrakingState,
      sideImpulseDetect, driftCond, applyDriftPhysicsF, restoreNormalPhysicsF,
      updateDriftPhysicsF, targetSteeringOf, restTickIn,
      BASE_LINEAR_DAMPING, BASE_ANGULAR_DAMPING, MIN_SPEED_FOR_LATERAL_RESISTANCE,
      DRIFT_INITIATION_SPEED, DRIFT_ANGLE_THRESHOLD, TURN_RESISTANCE_FACTOR,
      LATERAL_RESISTANCE_FACTOR, MIN_STEERING_FACTOR, REAR_FRICTION_NORMAL,
      REAR_FRICTION_HANDBRAKE, FRONT_FRICTION, DRIFT_MOMENTUM_FACTOR,
      DRIFT_STABILITY_FACTOR]
  rw [h1, h2, h3, h4]
  norm_num [initialCarState, REAR_FRICTION_NORMAL]

/-- C3 amended: when the exit transition of `updateDriftState` actually runs
(the drift predicate is false while the side-impulse detection of the same
tick still flags drift), `restoreNormalPhysics` sets the rear wheel friction
to the fixed constant `REAR_FRICTION_NORMAL` — not to a saved pre-drift
value — and the state ends Normal; consequently an enter-then-exit cycle
through this path is an identity on wheel friction precisely for states
whose rear friction was already `REAR_FRICTION_NORMAL` (front wheel body
friction is never modified by the drift code). -/
theorem c3_friction_restore (s : CarState) (inp : TickIn)
    (hd : driftCond inp = false) (hsi : sideImpulseDetect inp = true) :
    (carTick s inp).rearFriction = REAR_FRICTION_NORMAL ∧
    (carTick s inp).isDriftDetected = false := by
  unfold carTick
  constructor
  · apply updateDriftStateF_rearFriction_exit _ _ hd
    rw [handleSteeringState_isDriftDetected, handleBrakingState_isDriftDetected, hsi]
  · rw [updateDriftStateF_isDriftDetected, hd]

/-- Witness for C3 amended at a concrete exit tick: handbrake released while
the rear side impulse is still 6. -/
theorem c3_friction_restore_witness :
    (carTick initialCarState
      ⟨⟨false, false, false, false, false⟩, 50, 6, 40, 1, 6, 6, 0, 0⟩).rearFriction =
      REAR_FRICTION_NORMAL :=
  (c3_friction_restore initialCarState
    ⟨⟨false, false, false, false, false⟩, 50, 6, 40, 1, 6, 6, 0, 0⟩
    (by simp [driftCond])
    (by norm_num [sideImpulseDetect, abs_of_nonneg])).1

/-- C10: immediately after `disable()`, `isKeyPressed` returns `false` for
every key — both from an arbitrary controls state and after any key-press
history folded from the constructor state (the disabled state's fresh empty
`keys` dictionary reports every lookup as unpressed). -/
theorem c10_disable_clears_keys (s : CarControlsState)
    (history : List ControlEvent) (key : String) :
    isKeyPressed (disableControls s) key = false ∧
    isKeyPressed (disableControls (applyEvents initControls history)) key = false :=
  ⟨rfl, rfl⟩

end Hotwheels
